import Mathlib

/-!
Verification of the event-dispatch and quota-enforcement pipeline of
`src/main.py` (a LINE webhook bot relaying messages to an OpenAI
assistant).

The embedding models, faithfully to the source:
* the per-user quota store `user_message_counts` (a Python dict) as an
  association list `QuotaMap`;
* `reset_user_count` (lines 50-54);
* the citation post-processing and error absorption of
  `call_openai_assistant_api` (lines 56-89), with the remote OpenAI
  interaction abstracted as a `BackendOutcome` value (success with a
  list of returned messages, a structured `OpenAIError`, or any other
  exception);
* the per-event body of the `handle_callback` loop (lines 108-150) as
  `handle_event`, which returns the updated quota map together with a
  trace of `Action`s (backend call, counter increment, replies sent) in
  source statement order;
* the `for event in events` loop as `run_events`;
* concurrent processing of two webhook requests on the asyncio event
  loop as `conc_run`.  Suspension points exist only at genuine `await`s
  that reach the event loop; `call_openai_assistant_api` contains no
  `await` in its body (it uses the synchronous OpenAI client), so the
  whole quota block (lines 117-144) of one event runs without
  suspension, and a task can only be interleaved at the final
  `reply_message` await.

Module-level configuration loading (lines 17-32) and webhook signature
checking (lines 91-106) are external plumbing, out of the modelled
core.  Timestamps are naturals (seconds); `datetime.now() +
timedelta(days=1)` becomes `now + one_day`.
-/

namespace CchBot

/-- `USER_DAILY_LIMIT = 10` (line 43). -/
def USER_DAILY_LIMIT : Nat := 10

/-- One day, the quota window length (`timedelta(days=1)`, line 53),
in seconds. -/
def one_day : Nat := 86400

/-- The fixed introduction text (lines 45-48; Python juxtaposed string
literals concatenate). -/
def introduction_message : String :=
  "我是 彰化基督教醫院 內分泌暨新陳代謝科 小助理，..." ++
  "但基本上我是由 OPENAI 大型語言模型訓練..."

/-- Reply for a user over the daily limit (line 126). -/
def quota_exceeded_message : String := "您好：您的問題..."

/-- Reply on a structured `OpenAIError` (line 85). -/
def openai_error_message : String := "抱歉，我無法處理您的請求，請稍後再試。"

/-- Reply on any other exception inside the backend call (line 89). -/
def unknown_error_message : String := "系統出現錯誤，請稍後再試。"

/-- Reply for an exception escaping the backend call into the
dispatcher (line 142).  `call_openai_assistant_api` returns normally on
every modelled outcome, so this path is dead in the model. -/
def dispatch_error_message : String := "處理訊息時發生錯誤，請稍後重試。"

/-! ### Characters and strings

Python string primitives (`in`, `str.replace`) re-implemented over
`List Char` by structural recursion, so that every use reduces in the
kernel. -/

/-- Does `s` start with `p`? -/
def starts_with : List Char → List Char → Bool
  | _, [] => true
  | [], _ :: _ => false
  | c :: cs, p :: ps => c == p && starts_with cs ps

/-- Does `pat` occur in `s` (Python `pat in s`)? -/
def contains_core (pat : List Char) : List Char → Bool
  | [] => starts_with [] pat
  | c :: cs => starts_with (c :: cs) pat || contains_core pat cs

/-- Python `pat in s` on strings. -/
def contains_sub (s pat : String) : Bool := contains_core pat.data s.data

/-- Core of Python `str.replace`: scan left to right, replacing each
non-overlapping occurrence of `pat` with `rep`.  `fuel` bounds the
recursion; any `fuel ≥ s.length` gives the full scan. -/
def py_replace_core (pat rep : List Char) : Nat → List Char → List Char
  | _, [] => []
  | 0, s => s
  | fuel + 1, c :: cs =>
    if pat.isEmpty = false && starts_with (c :: cs) pat then
      rep ++ py_replace_core pat rep fuel (List.drop (pat.length - 1) cs)
    else
      c :: py_replace_core pat rep fuel cs

/-- Python `s.replace(pat, rep)` (all non-overlapping occurrences,
left to right), for nonempty `pat`. -/
def py_replace (s pat rep : String) : String :=
  ⟨py_replace_core pat.data rep.data s.data.length s.data⟩

/-! ### Command classifier (line 130) -/

/-- `"介紹" in user_message or "你是誰" in user_message` (line 130). -/
def is_introduction (text : String) : Bool :=
  contains_sub text "介紹" || contains_sub text "你是誰"

/-! ### Backend client: `call_openai_assistant_api` (lines 56-89) -/

/-- One citation annotation of the assistant message
(`message_content.annotations`): the annotated span's literal text and
the optional file citation's `file_id`. -/
structure Annot where
  text : String
  file_citation : Option String
deriving DecidableEq

/-- The text object of a returned assistant message
(`messages[i].content[0].text`): its `value` and its annotation list. -/
structure MessageContent where
  value : String
  anns : List Annot
deriving DecidableEq

/-- Outcome of the remote OpenAI interaction (thread create, run
create-and-poll, message list), abstracted: the run completed and the
listed messages have the given text objects, or a structured
`OpenAIError` was raised, or any other exception was raised. -/
inductive BackendOutcome where
  | completed (messages : List MessageContent)
  | openaiError
  | otherError
deriving DecidableEq

/-- The annotation loop (lines 75-79): for each annotation, in
enumeration order starting at `i`, replace its text in `v` with the
bracketed index, and if it has a file citation append
`"[i] filename"` (via `retrieve`, modelling `client.files.retrieve`)
to the citation list `cits`. -/
def apply_annots (retrieve : String → String) :
    Nat → String → List String → List Annot → String × List String
  | _, v, cits, [] => (v, cits)
  | i, v, cits, a :: rest =>
    let v1 := py_replace v a.text ("[" ++ toString i ++ "]")
    let cits1 := match a.file_citation with
      | some fid => cits ++ ["[" ++ toString i ++ "] " ++ retrieve fid]
      | none => cits
    apply_annots retrieve (i + 1) v1 cits1 rest

/-- `call_openai_assistant_api` (lines 56-89).  On a completed run it
reads `messages[0]` — an empty message list raises `IndexError`, which
the generic `except Exception` handler (lines 87-89) absorbs — then
runs the annotation loop and returns `message_content.value`; the
computed `citations` list is dropped (line 81 returns only the value).
`OpenAIError` and any other exception are absorbed into the two fixed
messages (lines 83-89).  Total: every outcome yields a string. -/
def call_openai_assistant_api (retrieve : String → String)
    (outcome : BackendOutcome) : String :=
  match outcome with
  | .completed msgs =>
    match msgs.head? with
    | none => unknown_error_message
    | some m => (apply_annots retrieve 0 m.value [] m.anns).1
  | .openaiError => openai_error_message
  | .otherError => unknown_error_message

/-! ### Quota store (lines 42-54) -/

/-- One entry of `user_message_counts`: `{'count': ..., 'reset_time':
...}`. -/
structure UserQuota where
  count : Nat
  reset_time : Nat
deriving DecidableEq

/-- `user_message_counts`, a dict from user id to quota record，as an
association list (first binding wins). -/
abbrev QuotaMap : Type := List (String × UserQuota)

/-- Dict membership / read: the first binding of `uid`. -/
def qlookup (uid : String) : QuotaMap → Option UserQuota
  | [] => none
  | (k, v) :: rest => if k = uid then some v else qlookup uid rest

/-- Dict write `user_message_counts[uid] = q`. -/
def qset (uid : String) (q : UserQuota) : QuotaMap → QuotaMap
  | [] => [(uid, q)]
  | (k, v) :: rest =>
    if k = uid then (uid, q) :: rest else (k, v) :: qset uid q rest

/-- `user_message_counts[uid]['count'] += 1` (line 144). -/
def qbump (uid : String) : QuotaMap → QuotaMap
  | [] => []
  | (k, v) :: rest =>
    if k = uid then (k, { v with count := v.count + 1 }) :: rest
    else (k, v) :: qbump uid rest

/-- The user's current count (the record is always present where the
source reads it; `0` is an unreachable default). -/
def quota_count (uid : String) (m : QuotaMap) : Nat :=
  match qlookup uid m with
  | some q => q.count
  | none => 0

/-- `reset_user_count` (lines 50-54): store a fresh record with
`count = 0` and `reset_time = now + one_day`. -/
def reset_user_count (now : Nat) (uid : String) (m : QuotaMap) : QuotaMap :=
  qset uid ⟨0, now + one_day⟩ m

/-- Lines 117-120: create the record if absent; reset it if the window
expired (`datetime.now() >= reset_time`); otherwise leave it alone. -/
def ensure_record (now : Nat) (uid : String) (m : QuotaMap) : QuotaMap :=
  match qlookup uid m with
  | none => reset_user_count now uid m
  | some q =>
    if q.reset_time ≤ now then reset_user_count now uid m else m

/-! ### Dispatcher: the per-event body of `handle_callback`
(lines 108-150) -/

/-- One canonical inbound event: `is_text` models the
`isinstance(event, MessageEvent) and isinstance(event.message,
TextMessage)` guard (line 109). -/
structure InboundEvent where
  user_id : String
  text : String
  reply_token : String
  is_text : Bool
deriving DecidableEq

/-- Observable actions of one event's processing, in source statement
order: the backend call (line 139), the counter increment (line 144),
and each reply sent (`line_bot_api.reply_message`, carrying the reply
token and the text). -/
inductive Action where
  | backend_call
  | increment
  | reply (token : String) (text : String)
deriving DecidableEq, BEq

/-- The loop body of `handle_callback` for one event (lines 108-150):
skip non-text events; ensure/reset the quota record (117-120); if
`count >= USER_DAILY_LIMIT` reply with the quota text (122-128); else
if the message is an introduction request reply with the introduction
text (130-136); else call the backend, increment the counter, and
reply with the backend's text (138-150).  Returns the updated map and
the action trace in execution order. -/
def handle_event (retrieve : String → String) (now : Nat)
    (backend : BackendOutcome) (ev : InboundEvent) (m : QuotaMap) :
    QuotaMap × List Action :=
  if ev.is_text = true then
    let m1 := ensure_record now ev.user_id m
    if USER_DAILY_LIMIT ≤ quota_count ev.user_id m1 then
      (m1, [Action.reply ev.reply_token quota_exceeded_message])
    else if is_introduction ev.text = true then
      (m1, [Action.reply ev.reply_token introduction_message])
    else
      (qbump ev.user_id m1,
       [Action.backend_call, Action.increment,
        Action.reply ev.reply_token (call_openai_assistant_api retrieve backend)])
  else (m, [])

/-- The `for event in events` loop (line 108): process events in
order, threading the quota map; collect each event's trace. -/
def run_events (retrieve : String → String) :
    List (Nat × InboundEvent × BackendOutcome) → QuotaMap →
    QuotaMap × List (List Action)
  | [], m => (m, [])
  | (now, ev, b) :: rest, m =>
    let r1 := handle_event retrieve now b ev m
    let r2 := run_events retrieve rest r1.1
    (r2.1, r1.2 :: r2.2)

/-- The reply actions of a trace, as (token, text) pairs. -/
def reply_actions (tr : List Action) : List (String × String) :=
  tr.filterMap fun a =>
    match a with
    | Action.reply tok t => some (tok, t)
    | _ => none

/-- `a` occurs strictly before some occurrence of `b` in the trace. -/
def occurs_before (a b : Action) : List Action → Bool
  | [] => false
  | x :: rest => if x = a then rest.contains b else occurs_before a b rest

/-- The trace of one allowed (backend-forwarded) `Query` event. -/
def allowed_trace (retrieve : String → String) (backend : BackendOutcome)
    (token : String) : List Action :=
  [Action.backend_call, Action.increment,
   Action.reply token (call_openai_assistant_api retrieve backend)]

/-- The trace of one quota-denied event. -/
def denied_trace (token : String) : List Action :=
  [Action.reply token quota_exceeded_message]

/-! ### Concurrency model (two webhook requests on one asyncio loop)

Each HTTP request runs as one asyncio task.  A task suspends only at an
`await` that reaches the event loop.  `call_openai_assistant_api` is an
`async def` whose body contains no `await` (lines 56-89 use the
synchronous OpenAI client), so awaiting it at line 139 runs it to
completion without suspending; hence the whole quota block of one
event — record ensure (117-120), limit check (122), backend call (139)
and increment (144) — is a single uninterruptible block, and the only
suspension inside one event's processing is the final
`reply_message` await. -/

/-- An asyncio task processing one text-message event: not yet started
(`pending`), suspended at the `reply_message` await (`replying`, with
its completed action trace), or done (`finished`). -/
inductive TaskState where
  | pending (now : Nat) (backend : BackendOutcome) (ev : InboundEvent)
  | replying (tr : List Action)
  | finished (tr : List Action)
deriving DecidableEq

/-- Is the task still before its quota block? -/
def TaskState.isPending : TaskState → Bool
  | .pending _ _ _ => true
  | _ => false

/-- The task's completed action trace, once its quota block has run. -/
def traceOf : TaskState → Option (List Action)
  | .pending _ _ _ => none
  | .replying tr => some tr
  | .finished tr => some tr

/-- Run one atomic block of a task: the quota block (via
`handle_event`), or completion of the pending `reply_message` await
(which touches no quota state). -/
def task_block (retrieve : String → String) (m : QuotaMap) :
    TaskState → QuotaMap × TaskState
  | .pending now b ev =>
    let r := handle_event retrieve now b ev m
    (r.1, .replying r.2)
  | .replying tr => (m, .finished tr)
  | .finished tr => (m, .finished tr)

/-- Two concurrent tasks sharing the quota map. -/
structure ConcState where
  counts : QuotaMap
  t1 : TaskState
  t2 : TaskState
deriving DecidableEq

/-- One scheduler step: run the next atomic block of the chosen task
(`true` = first task). -/
def conc_step (retrieve : String → String) (pick : Bool)
    (s : ConcState) : ConcState :=
  if pick then
    let r := task_block retrieve s.counts s.t1
    ⟨r.1, r.2, s.t2⟩
  else
    let r := task_block retrieve s.counts s.t2
    ⟨r.1, s.t1, r.2⟩

/-- Run a whole schedule, one chosen task block per entry. -/
def conc_run (retrieve : String → String) :
    List Bool → ConcState → ConcState
  | [], s => s
  | p :: ps, s => conc_run retrieve ps (conc_step retrieve p s)

/-- The task has run its quota block and its recorded trace is `tr`
(it is suspended at, or has completed, its reply await). -/
def done_with (tr : List Action) (t : TaskState) : Prop :=
  t = TaskState.replying tr ∨ t = TaskState.finished tr

/-- Reachability invariant for two concurrent query tasks of the same
user `uid` with one quota slot left: either neither quota block has
run yet (count `USER_DAILY_LIMIT - 1`), or exactly one has run and was
backend-forwarded (count at the limit), or both have run and exactly
one was forwarded while the other was denied. -/
def c6_inv (retrieve : String → String) (uid : String)
    (rt now1 now2 : Nat) (b1 b2 : BackendOutcome)
    (ev1 ev2 : InboundEvent) (s : ConcState) : Prop :=
  (qlookup uid s.counts = some ⟨USER_DAILY_LIMIT - 1, rt⟩
    ∧ s.t1 = TaskState.pending now1 b1 ev1
    ∧ s.t2 = TaskState.pending now2 b2 ev2)
  ∨ (qlookup uid s.counts = some ⟨USER_DAILY_LIMIT, rt⟩
    ∧ done_with (allowed_trace retrieve b1 ev1.reply_token) s.t1
    ∧ s.t2 = TaskState.pending now2 b2 ev2)
  ∨ (qlookup uid s.counts = some ⟨USER_DAILY_LIMIT, rt⟩
    ∧ s.t1 = TaskState.pending now1 b1 ev1
    ∧ done_with (allowed_trace retrieve b2 ev2.reply_token) s.t2)
  ∨ (qlookup uid s.counts = some ⟨USER_DAILY_LIMIT, rt⟩
    ∧ done_with (allowed_trace retrieve b1 ev1.reply_token) s.t1
    ∧ done_with (denied_trace ev2.reply_token) s.t2)
  ∨ (qlookup uid s.counts = some ⟨USER_DAILY_LIMIT, rt⟩
    ∧ done_with (denied_trace ev1.reply_token) s.t1
    ∧ done_with (allowed_trace retrieve b2 ev2.reply_token) s.t2)

/-! ### Statement apparatus (expected behaviour, from the spec) -/

/-- Expected traces of a sequence of under-window `Query` events from
one user whose count starts at `c` (spec §4.1, §8): each event is
backend-forwarded while `c < USER_DAILY_LIMIT` (and then counts), and
quota-denied afterwards. -/
def expected_traces (retrieve : String → String) :
    Nat → List (Nat × InboundEvent × BackendOutcome) → List (List Action)
  | _, [] => []
  | c, (_, ev, b) :: rest =>
    if c < USER_DAILY_LIMIT then
      allowed_trace retrieve b ev.reply_token ::
        expected_traces retrieve (c + 1) rest
    else
      denied_trace ev.reply_token :: expected_traces retrieve c rest

/-- Every stored counter is at most the daily limit. -/
def counts_ok : QuotaMap → Bool
  | [] => true
  | p :: rest => decide (p.2.count ≤ USER_DAILY_LIMIT) && counts_ok rest

/-- Erase an annotation's file citation (keep its span text). -/
def strip_cit (a : Annot) : Annot := ⟨a.text, none⟩

/-- Expected final count after `n` under-window `Query` events from a
user whose count starts at `c`: each event increments while below the
limit and is denied (no increment) otherwise. -/
def final_count : Nat → Nat → Nat
  | c, 0 => c
  | c, n + 1 => if c < USER_DAILY_LIMIT then final_count (c + 1) n else c

/-! ### Helper lemmas -/

theorem qlookup_qset_self (uid : String) (q : UserQuota) (m : QuotaMap) :
    qlookup uid (qset uid q m) = some q := by
  induction m with
  | nil => simp [qset, qlookup]
  | cons p rest ih =>
    obtain ⟨k, v⟩ := p
    by_cases h : k = uid
    · simp [qset, h, qlookup]
    · simp [qset, h, qlookup, ih]

theorem qlookup_qbump (uid : String) (m : QuotaMap) (q : UserQuota)
    (h : qlookup uid m = some q) :
    qlookup uid (qbump uid m) = some ⟨q.count + 1, q.reset_time⟩ := by
  induction m with
  | nil => simp [qlookup] at h
  | cons p rest ih =>
    obtain ⟨k, v⟩ := p
    by_cases hk : k = uid
    · simp [qlookup, hk] at h
      simp [qbump, hk, qlookup, h]
    · simp [qlookup, hk] at h
      simp [qbump, hk, qlookup, ih h]

theorem ensure_fresh (now : Nat) (uid : String) (m : QuotaMap)
    (h : qlookup uid m = none) :
    ensure_record now uid m = reset_user_count now uid m := by
  simp [ensure_record, h]

theorem ensure_expired (now : Nat) (uid : String) (m : QuotaMap)
    (q : UserQuota) (h : qlookup uid m = some q) (hexp : q.reset_time ≤ now) :
    ensure_record now uid m = reset_user_count now uid m := by
  simp [ensure_record, h, hexp]

theorem ensure_live (now : Nat) (uid : String) (m : QuotaMap)
    (q : UserQuota) (h : qlookup uid m = some q) (hlive : now < q.reset_time) :
    ensure_record now uid m = m := by
  simp [ensure_record, h, Nat.not_le.mpr hlive]

theorem quota_count_reset (now : Nat) (uid : String) (m : QuotaMap) :
    quota_count uid (reset_user_count now uid m) = 0 := by
  simp [quota_count, reset_user_count, qlookup_qset_self]

theorem handle_denied (retrieve : String → String) (now : Nat)
    (b : BackendOutcome) (ev : InboundEvent) (m : QuotaMap)
    (htext : ev.is_text = true)
    (hge : USER_DAILY_LIMIT ≤ quota_count ev.user_id (ensure_record now ev.user_id m)) :
    handle_event retrieve now b ev m =
      (ensure_record now ev.user_id m, denied_trace ev.reply_token) := by
  simp [handle_event, htext, hge, denied_trace]

theorem handle_intro (retrieve : String → String) (now : Nat)
    (b : BackendOutcome) (ev : InboundEvent) (m : QuotaMap)
    (htext : ev.is_text = true)
    (hintro : is_introduction ev.text = true)
    (hlt : quota_count ev.user_id (ensure_record now ev.user_id m) < USER_DAILY_LIMIT) :
    handle_event retrieve now b ev m =
      (ensure_record now ev.user_id m,
       [Action.reply ev.reply_token introduction_message]) := by
  simp [handle_event, htext, hintro, Nat.not_le.mpr hlt]

theorem handle_query_allowed (retrieve : String → String) (now : Nat)
    (b : BackendOutcome) (ev : InboundEvent) (m : QuotaMap)
    (htext : ev.is_text = true)
    (hintro : is_introduction ev.text = false)
    (hlt : quota_count ev.user_id (ensure_record now ev.user_id m) < USER_DAILY_LIMIT) :
    handle_event retrieve now b ev m =
      (qbump ev.user_id (ensure_record now ev.user_id m),
       allowed_trace retrieve b ev.reply_token) := by
  simp [handle_event, htext, hintro, Nat.not_le.mpr hlt, allowed_trace]

theorem apply_annots_fst_cits (retrieve : String → String) :
    ∀ (anns : List Annot) (i : Nat) (v : String) (c1 c2 : List String),
      (apply_annots retrieve i v c1 anns).1 = (apply_annots retrieve i v c2 anns).1 := by
  intro anns
  induction anns with
  | nil => intro i v c1 c2; rfl
  | cons a rest ih =>
    intro i v c1 c2
    simp only [apply_annots]
    cases a.file_citation <;> exact ih _ _ _ _

/-! ### Claim theorems -/

/-- C1 (counterexample): the message "你是誰" is classified as an
introduction request, yet for a user whose count is at the daily limit
the dispatcher replies with the quota-exceeded text, not the
introduction text — the quota check at line 122 runs before the
introduction check at line 130. -/
theorem C1_counterexample :
    is_introduction "你是誰" = true
    ∧ handle_event (fun _ => "") 0 BackendOutcome.openaiError
        ⟨"U", "你是誰", "tok", true⟩ [("U", ⟨10, 100⟩)]
        = ([("U", ⟨10, 100⟩)], [Action.reply "tok" quota_exceeded_message])
    ∧ (quota_exceeded_message == introduction_message) = false := by
  decide

/-- C1 (amended): an introduction-classified message never changes the
count (beyond the lazy record ensure that every message performs): if
the user is under the daily limit after the ensure, the reply is the
fixed introduction text and the quota map is exactly the ensured map
(no increment); but if the count has reached the limit, the quota
check fires first and the reply is the quota-exceeded text — again
with no increment. -/
theorem C1_amended (retrieve : String → String) (now : Nat)
    (b : BackendOutcome) (ev : InboundEvent) (m : QuotaMap)
    (htext : ev.is_text = true)
    (hintro : is_introduction ev.text = true) :
    (quota_count ev.user_id (ensure_record now ev.user_id m) < USER_DAILY_LIMIT →
      handle_event retrieve now b ev m =
        (ensure_record now ev.user_id m,
         [Action.reply ev.reply_token introduction_message]))
    ∧ (USER_DAILY_LIMIT ≤ quota_count ev.user_id (ensure_record now ev.user_id m) →
      handle_event retrieve now b ev m =
        (ensure_record now ev.user_id m, denied_trace ev.reply_token)) :=
  ⟨fun hlt => handle_intro retrieve now b ev m htext hintro hlt,
   fun hge => handle_denied retrieve now b ev m htext hge⟩

/-- C1 (witness): a user at count 3 sends "你是誰" and receives the
introduction text, with the stored count unchanged. -/
theorem C1_witness :
    handle_event (fun _ => "") 0 BackendOutcome.openaiError
      ⟨"U", "你是誰", "tok", true⟩ [("U", ⟨3, 100⟩)]
      = ([("U", ⟨3, 100⟩)], [Action.reply "tok" introduction_message]) := by
  have h := (C1_amended (fun _ => "") 0 BackendOutcome.openaiError
    ⟨"U", "你是誰", "tok", true⟩ [("U", ⟨3, 100⟩)] (by decide) (by decide)).1 (by decide)
  exact h.trans (by decide)

/-- C2 (code bug): for a backend response whose text carries one
citation annotation, the annotated span is replaced by `[0]` and the
citation line `"[0] ref.pdf"` is computed into the `citations` list,
but the returned reply text is only the substituted value — the
reference list is never appended (line 81 returns
`message_content.value` and the `citations` variable is dead). -/
theorem C2_citations_dropped :
    call_openai_assistant_api (fun _ => "ref.pdf")
        (BackendOutcome.completed [⟨"甲【src】乙", [⟨"【src】", some "f1"⟩]⟩])
      = "甲[0]乙"
    ∧ (apply_annots (fun _ => "ref.pdf") 0 "甲【src】乙" [] [⟨"【src】", some "f1"⟩]).2
      = ["[0] ref.pdf"]
    ∧ contains_sub "甲[0]乙" "ref.pdf" = false := by
  decide

/-- C3 (counterexample): for an under-limit query, the execution trace
is backend call, then increment, then reply — the increment does not
precede the backend call, so the quota slot is not consumed before the
backend call is made (line 144 runs after line 139). -/
theorem C3_counterexample :
    (handle_event (fun _ => "") 0 BackendOutcome.openaiError
        ⟨"U", "hi", "tok", true⟩ [("U", ⟨3, 100⟩)]).2
      = [Action.backend_call, Action.increment,
         Action.reply "tok" openai_error_message]
    ∧ occurs_before Action.increment Action.backend_call
        (handle_event (fun _ => "") 0 BackendOutcome.openaiError
          ⟨"U", "hi", "tok", true⟩ [("U", ⟨3, 100⟩)]).2 = false := by
  decide

/-- C3 (amended): the limit check and the increment are separate
operations: for every under-limit query the dispatcher calls the
backend first and increments the user's count afterwards — the
increment follows the backend call in the trace, and it happens for
every backend outcome (success or absorbed failure) rather than
conditionally on it. -/
theorem C3_amended (retrieve : String → String) (now : Nat)
    (b : BackendOutcome) (ev : InboundEvent) (m : QuotaMap)
    (htext : ev.is_text = true)
    (hintro : is_introduction ev.text = false)
    (hlt : quota_count ev.user_id (ensure_record now ev.user_id m) < USER_DAILY_LIMIT) :
    handle_event retrieve now b ev m =
      (qbump ev.user_id (ensure_record now ev.user_id m),
       allowed_trace retrieve b ev.reply_token)
    ∧ occurs_before Action.backend_call Action.increment
        (handle_event retrieve now b ev m).2 = true :=
  have h := handle_query_allowed retrieve now b ev m htext hintro hlt
  ⟨h, by rw [h]; rfl⟩

/-- C3 (witness): concrete under-limit query exercising the amended
statement. -/
theorem C3_witness :
    handle_event (fun _ => "") 0 BackendOutcome.otherError
        ⟨"U", "hello", "tok", true⟩ [("U", ⟨0, 100⟩)]
      = (qbump "U" (ensure_record 0 "U" [("U", ⟨0, 100⟩)]),
         allowed_trace (fun _ => "") BackendOutcome.otherError "tok")
    ∧ occurs_before Action.backend_call Action.increment
        (handle_event (fun _ => "") 0 BackendOutcome.otherError
          ⟨"U", "hello", "tok", true⟩ [("U", ⟨0, 100⟩)]).2 = true :=
  C3_amended (fun _ => "") 0 BackendOutcome.otherError
    ⟨"U", "hello", "tok", true⟩ [("U", ⟨0, 100⟩)] rfl (by decide) (by decide)

/-- C7: `call_openai_assistant_api` is total over all modelled
outcomes and absorbs every failure: a structured `OpenAIError` yields
the first fixed user-safe message, any other exception — including an
empty result set, whose `IndexError` lands in the generic handler —
yields the second, distinct fixed message; no outcome propagates an
error to the dispatcher. -/
theorem C7_backend_total_absorption (retrieve : String → String) :
    call_openai_assistant_api retrieve BackendOutcome.openaiError
      = openai_error_message
    ∧ call_openai_assistant_api retrieve BackendOutcome.otherError
      = unknown_error_message
    ∧ call_openai_assistant_api retrieve (BackendOutcome.completed [])
      = unknown_error_message
    ∧ (openai_error_message == unknown_error_message) = false :=
  ⟨rfl, rfl, rfl, by decide⟩

/-- C8: every processed text-message event produces exactly one reply,
keyed by that event's reply token: the trace's reply actions are
exactly one use of `ev.reply_token`, on every code path. -/
theorem C8_exactly_one_reply (retrieve : String → String) (now : Nat)
    (b : BackendOutcome) (ev : InboundEvent) (m : QuotaMap)
    (htext : ev.is_text = true) :
    (reply_actions (handle_event retrieve now b ev m).2).map Prod.fst
      = [ev.reply_token] := by
  by_cases hge : USER_DAILY_LIMIT ≤ quota_count ev.user_id (ensure_record now ev.user_id m)
  · rw [handle_denied retrieve now b ev m htext hge]
    simp [denied_trace, reply_actions]
  · cases hI : is_introduction ev.text
    · rw [handle_query_allowed retrieve now b ev m htext hI (Nat.not_le.mp hge)]
      simp [allowed_trace, reply_actions]
    · rw [handle_intro retrieve now b ev m htext hI (Nat.not_le.mp hge)]
      simp [reply_actions]

/-- C8 (witness): one concrete forwarded event sends exactly one
reply with its own token. -/
theorem C8_witness :
    (reply_actions (handle_event (fun _ => "") 0 BackendOutcome.openaiError
        ⟨"U", "hi", "tok", true⟩ []).2).map Prod.fst = ["tok"] :=
  C8_exactly_one_reply (fun _ => "") 0 BackendOutcome.openaiError
    ⟨"U", "hi", "tok", true⟩ [] rfl

/-- C10: citation substitution is a global string replacement and
index assignment counts every annotation: (a) the substituted reply
value is unchanged if file citations are erased from the annotations —
each annotation consumes its enumeration index whether or not it
carries a citation; (b) on a value where the annotated span `"X"`
occurs three times, every occurrence is replaced by `[0]`, and a
second, citation-bearing annotation still receives index `1`. -/
theorem C10_global_replacement :
    (∀ (retrieve : String → String) (i : Nat) (v : String)
        (cits : List String) (anns : List Annot),
      (apply_annots retrieve i v cits anns).1
        = (apply_annots retrieve i v cits (anns.map strip_cit)).1)
    ∧ apply_annots (fun _ => "r.pdf") 0 "X a X b X" []
        [⟨"X", none⟩, ⟨"b", some "f"⟩]
      = ("[0] a [0] [1] [0]", ["[1] r.pdf"]) := by
  constructor
  · intro retrieve i v cits anns
    induction anns generalizing i v cits with
    | nil => rfl
    | cons a rest ih =>
      simp only [List.map, apply_annots, strip_cit]
      cases a.file_citation with
      | none => exact ih _ _ _
      | some fid =>
        exact (ih _ _ _).trans (apply_annots_fst_cits _ _ _ _ _ _)
  · decide

/-- C5: the quota lifecycle is lazy: on a first-ever message the
record is created with count 0 and window `now + one_day`, and on any
access at or past `reset_time` it is reset likewise, in both cases
before the limit is evaluated — so a text query in either situation is
backend-forwarded (the stale count, even one at or over the limit, is
never evaluated) and the user regains full quota. -/
theorem C5_lazy_record_lifecycle (retrieve : String → String)
    (now : Nat) (b : BackendOutcome) (ev : InboundEvent) (m : QuotaMap)
    (q : UserQuota)
    (hcase : qlookup ev.user_id m = none
      ∨ (qlookup ev.user_id m = some q ∧ q.reset_time ≤ now))
    (htext : ev.is_text = true)
    (hintro : is_introduction ev.text = false) :
    qlookup ev.user_id (ensure_record now ev.user_id m) = some ⟨0, now + one_day⟩
    ∧ handle_event retrieve now b ev m
        = (qbump ev.user_id (reset_user_count now ev.user_id m),
           allowed_trace retrieve b ev.reply_token) := by
  have hens : ensure_record now ev.user_id m = reset_user_count now ev.user_id m := by
    rcases hcase with h | ⟨h, hexp⟩
    · exact ensure_fresh now ev.user_id m h
    · exact ensure_expired now ev.user_id m q h hexp
  have hlt : quota_count ev.user_id (ensure_record now ev.user_id m) < USER_DAILY_LIMIT := by
    rw [hens, quota_count_reset]
    decide
  constructor
  · rw [hens]
    simp [reset_user_count, qlookup_qset_self]
  · rw [handle_query_allowed retrieve now b ev m htext hintro hlt, hens]

/-- C5 (witness): a user whose window expired at time 100 and whose
stale count is 10 (the full limit) sends a query at time 200: the
record is reset to count 0 with window 200 + one day, and the query is
backend-forwarded. -/
theorem C5_witness :
    qlookup "U" (ensure_record 200 "U" [("U", ⟨10, 100⟩)])
      = some ⟨0, 200 + one_day⟩
    ∧ handle_event (fun _ => "") 200 BackendOutcome.openaiError
        ⟨"U", "hi", "tok", true⟩ [("U", ⟨10, 100⟩)]
        = (qbump "U" (reset_user_count 200 "U" [("U", ⟨10, 100⟩)]),
           allowed_trace (fun _ => "") BackendOutcome.openaiError "tok") :=
  C5_lazy_record_lifecycle (fun _ => "") 200 BackendOutcome.openaiError
    ⟨"U", "hi", "tok", true⟩ [("U", ⟨10, 100⟩)] ⟨10, 100⟩
    (Or.inr ⟨rfl, by decide⟩) rfl (by decide)

theorem counts_ok_qset (uid : String) (q : UserQuota) (m : QuotaMap)
    (h : counts_ok m = true) (hq : q.count ≤ USER_DAILY_LIMIT) :
    counts_ok (qset uid q m) = true := by
  induction m with
  | nil => simp [qset, counts_ok, hq]
  | cons p rest ih =>
    obtain ⟨k, v⟩ := p
    simp only [counts_ok, Bool.and_eq_true, decide_eq_true_eq] at h
    by_cases hk : k = uid
    · simp [qset, hk, counts_ok, Bool.and_eq_true, hq, h.2]
    · simp [qset, hk, counts_ok, Bool.and_eq_true, h.1, ih h.2]

theorem counts_ok_qbump (uid : String) (m : QuotaMap)
    (h : counts_ok m = true) (hlt : quota_count uid m < USER_DAILY_LIMIT) :
    counts_ok (qbump uid m) = true := by
  induction m with
  | nil => simp [qbump, counts_ok]
  | cons p rest ih =>
    obtain ⟨k, v⟩ := p
    simp only [counts_ok, Bool.and_eq_true, decide_eq_true_eq] at h
    by_cases hk : k = uid
    · have hv : v.count < USER_DAILY_LIMIT := by
        simpa [quota_count, qlookup, hk] using hlt
      simp [qbump, hk, counts_ok, Bool.and_eq_true, Nat.succ_le_of_lt hv, h.2]
    · have hrest : quota_count uid rest < USER_DAILY_LIMIT := by
        simpa [quota_count, qlookup, hk] using hlt
      simp [qbump, hk, counts_ok, Bool.and_eq_true, h.1, ih h.2 hrest]

theorem counts_ok_ensure (now : Nat) (uid : String) (m : QuotaMap)
    (h : counts_ok m = true) :
    counts_ok (ensure_record now uid m) = true := by
  unfold ensure_record
  cases hq : qlookup uid m with
  | none => exact counts_ok_qset uid _ m h (Nat.zero_le _)
  | some q =>
    by_cases hexp : q.reset_time ≤ now
    · simp only [hexp, if_true]
      exact counts_ok_qset uid _ m h (Nat.zero_le _)
    · simp only [hexp, if_false]
      exact h

theorem counts_ok_handle (retrieve : String → String) (now : Nat)
    (b : BackendOutcome) (ev : InboundEvent) (m : QuotaMap)
    (h : counts_ok m = true) :
    counts_ok (handle_event retrieve now b ev m).1 = true := by
  cases ht : ev.is_text with
  | false => simpa [handle_event, ht] using h
  | true =>
    have h1 := counts_ok_ensure now ev.user_id m h
    by_cases hge : USER_DAILY_LIMIT ≤ quota_count ev.user_id (ensure_record now ev.user_id m)
    · rw [handle_denied retrieve now b ev m ht hge]
      exact h1
    · cases hI : is_introduction ev.text with
      | false =>
        rw [handle_query_allowed retrieve now b ev m ht hI (Nat.not_le.mp hge)]
        exact counts_ok_qbump ev.user_id _ h1 (Nat.not_le.mp hge)
      | true =>
        rw [handle_intro retrieve now b ev m ht hI (Nat.not_le.mp hge)]
        exact h1

theorem counts_ok_run (retrieve : String → String)
    (evs : List (Nat × InboundEvent × BackendOutcome)) (m : QuotaMap)
    (h : counts_ok m = true) :
    counts_ok (run_events retrieve evs m).1 = true := by
  induction evs generalizing m with
  | nil => exact h
  | cons e rest ih =>
    obtain ⟨now, ev, b⟩ := e
    exact ih _ (counts_ok_handle retrieve now b ev m h)

/-- C9: invariant under sequential execution: if every stored count is
at most `USER_DAILY_LIMIT` then it still is after processing one event
and after processing any sequence of events — a count is only
incremented when it was strictly below the limit at the preceding
check, so it never exceeds the limit. -/
theorem C9_count_never_exceeds_limit (retrieve : String → String)
    (now : Nat) (b : BackendOutcome) (ev : InboundEvent)
    (evs : List (Nat × InboundEvent × BackendOutcome)) (m : QuotaMap)
    (h : counts_ok m = true) :
    counts_ok (handle_event retrieve now b ev m).1 = true
    ∧ counts_ok (run_events retrieve evs m).1 = true :=
  ⟨counts_ok_handle retrieve now b ev m h,
   counts_ok_run retrieve evs m h⟩

theorem final_count_of_ge (c : Nat) (hc : ¬c < USER_DAILY_LIMIT) :
    ∀ n, final_count c n = c := by
  intro n
  induction n with
  | zero => rfl
  | succ n ih => rw [final_count, if_neg hc]

theorem final_count_eq_min :
    ∀ (n c : Nat), c ≤ USER_DAILY_LIMIT →
      final_count c n = min (c + n) USER_DAILY_LIMIT := by
  intro n
  induction n with
  | zero =>
    intro c hc
    simp only [final_count]
    omega
  | succ n ih =>
    intro c hc
    by_cases hlt : c < USER_DAILY_LIMIT
    · rw [final_count, if_pos hlt, ih (c + 1) hlt]
      omega
    · rw [final_count, if_neg hlt]
      omega

theorem run_window (retrieve : String → String) (uid : String) (R : Nat) :
    ∀ (evs : List (Nat × InboundEvent × BackendOutcome)) (m : QuotaMap) (c : Nat),
      qlookup uid m = some ⟨c, R⟩ →
      (∀ e ∈ evs, e.2.1.user_id = uid ∧ e.2.1.is_text = true ∧
        is_introduction e.2.1.text = false ∧ e.1 < R) →
      (run_events retrieve evs m).2 = expected_traces retrieve c evs
      ∧ qlookup uid (run_events retrieve evs m).1
          = some ⟨final_count c evs.length, R⟩ := by
  intro evs
  induction evs with
  | nil =>
    intro m c hm _
    exact ⟨rfl, by simpa [run_events, final_count] using hm⟩
  | cons e rest ih =>
    obtain ⟨t, ev, b⟩ := e
    intro m c hm hev
    obtain ⟨hu, ht, hi, htR⟩ := hev (t, ev, b) (List.mem_cons_self _ _)
    have hml : qlookup ev.user_id m = some ⟨c, R⟩ := by rw [hu]; exact hm
    have hens : ensure_record t ev.user_id m = m :=
      ensure_live t ev.user_id m ⟨c, R⟩ hml htR
    have hqc : quota_count ev.user_id (ensure_record t ev.user_id m) = c := by
      rw [hens]
      simp [quota_count, hml]
    have hevrest : ∀ e ∈ rest, e.2.1.user_id = uid ∧ e.2.1.is_text = true ∧
        is_introduction e.2.1.text = false ∧ e.1 < R :=
      fun e he => hev e (List.mem_cons_of_mem _ he)
    by_cases hc : c < USER_DAILY_LIMIT
    · have hstep := handle_query_allowed retrieve t b ev m ht hi (by rw [hqc]; exact hc)
      rw [hens, hu] at hstep
      obtain ⟨ih1, ih2⟩ := ih (qbump uid m) (c + 1)
        (qlookup_qbump uid m ⟨c, R⟩ hm) hevrest
      have hrun : run_events retrieve ((t, ev, b) :: rest) m
          = ((run_events retrieve rest (qbump uid m)).1,
             allowed_trace retrieve b ev.reply_token ::
               (run_events retrieve rest (qbump uid m)).2) := by
        simp only [run_events, hstep]
      rw [hrun]
      constructor
      · simp only [expected_traces, if_pos hc]
        rw [ih1]
      · simp only [List.length_cons, final_count, if_pos hc]
        exact ih2
    · have hstep := handle_denied retrieve t b ev m ht
        (by rw [hqc]; exact Nat.not_lt.mp hc)
      rw [hens] at hstep
      obtain ⟨ih1, ih2⟩ := ih m c hm hevrest
      have hrun : run_events retrieve ((t, ev, b) :: rest) m
          = ((run_events retrieve rest m).1,
             denied_trace ev.reply_token :: (run_events retrieve rest m).2) := by
        simp only [run_events, hstep]
      rw [hrun]
      constructor
      · simp only [expected_traces, if_neg hc]
        rw [ih1]
      · simp only [List.length_cons, final_count, if_neg hc]
        rw [final_count_of_ge c hc rest.length] at ih2
        exact ih2

theorem expected_forward_count (retrieve : String → String) :
    ∀ (evs : List (Nat × InboundEvent × BackendOutcome)) (c : Nat),
      ((expected_traces retrieve c evs).filter
          (fun tr => tr.contains Action.backend_call)).length
        = min evs.length (USER_DAILY_LIMIT - c) := by
  intro evs
  induction evs with
  | nil => intro c; simp [expected_traces]
  | cons e rest ih =>
    obtain ⟨t, ev, b⟩ := e
    intro c
    by_cases hc : c < USER_DAILY_LIMIT
    · simp only [expected_traces, if_pos hc]
      rw [List.filter_cons_of_pos rfl, List.length_cons, ih (c + 1)]
      simp only [List.length_cons]
      omega
    · simp only [expected_traces, if_neg hc]
      rw [List.filter_cons_of_neg (by exact Bool.false_ne_true), ih c]
      simp only [List.length_cons]
      omega

/-- C4: a user with a fresh record (count 0, window ending at `R`) who
sends more than `USER_DAILY_LIMIT` query messages, all inside the
window, gets exactly the expected trace sequence — the first
`USER_DAILY_LIMIT` events backend-forwarded, every later one answered
with the fixed quota-exceeded text — so exactly `USER_DAILY_LIMIT`
backend-forwarded replies in total, and the final count is
`USER_DAILY_LIMIT`: denied evaluations never increment. -/
theorem C4_rolling_window_exhaustion (retrieve : String → String)
    (uid : String) (R : Nat)
    (evs : List (Nat × InboundEvent × BackendOutcome)) (m : QuotaMap)
    (hm : qlookup uid m = some ⟨0, R⟩)
    (hev : ∀ e ∈ evs, e.2.1.user_id = uid ∧ e.2.1.is_text = true ∧
      is_introduction e.2.1.text = false ∧ e.1 < R)
    (hlen : USER_DAILY_LIMIT < evs.length) :
    (run_events retrieve evs m).2 = expected_traces retrieve 0 evs
    ∧ qlookup uid (run_events retrieve evs m).1
        = some ⟨USER_DAILY_LIMIT, R⟩
    ∧ ((run_events retrieve evs m).2.filter
        (fun tr => tr.contains Action.backend_call)).length
        = USER_DAILY_LIMIT := by
  obtain ⟨h1, h2⟩ := run_window retrieve uid R evs m 0 hm hev
  have hfc : final_count 0 evs.length = USER_DAILY_LIMIT := by
    rw [final_count_eq_min evs.length 0 (Nat.zero_le _)]
    omega
  refine ⟨h1, ?_, ?_⟩
  · rw [h2, hfc]
  · rw [h1, expected_forward_count]
    omega

/-- C4 (witness): 11 identical in-window queries from a fresh user:
traces match the expected sequence, the final count is 10, and exactly
10 of the 11 traces contain a backend call. -/
theorem C4_witness :
    (run_events (fun _ => "")
        (List.replicate 11 (0, ⟨"U", "hi", "tok", true⟩, BackendOutcome.openaiError))
        [("U", ⟨0, 5⟩)]).2
      = expected_traces (fun _ => "") 0
          (List.replicate 11 (0, ⟨"U", "hi", "tok", true⟩, BackendOutcome.openaiError))
    ∧ qlookup "U" (run_events (fun _ => "")
        (List.replicate 11 (0, ⟨"U", "hi", "tok", true⟩, BackendOutcome.openaiError))
        [("U", ⟨0, 5⟩)]).1 = some ⟨USER_DAILY_LIMIT, 5⟩
    ∧ (((run_events (fun _ => "")
        (List.replicate 11 (0, ⟨"U", "hi", "tok", true⟩, BackendOutcome.openaiError))
        [("U", ⟨0, 5⟩)]).2).filter
        (fun tr => tr.contains Action.backend_call)).length
        = USER_DAILY_LIMIT :=
  C4_rolling_window_exhaustion (fun _ => "") "U" 5
    (List.replicate 11 (0, ⟨"U", "hi", "tok", true⟩, BackendOutcome.openaiError))
    [("U", ⟨0, 5⟩)] (by decide) (by decide) (by decide)

theorem task_block_allowed (retrieve : String → String) (uid : String)
    (rt now : Nat) (b : BackendOutcome) (ev : InboundEvent) (m : QuotaMap)
    (hu : ev.user_id = uid) (ht : ev.is_text = true)
    (hi : is_introduction ev.text = false) (hn : now < rt)
    (hm : qlookup uid m = some ⟨USER_DAILY_LIMIT - 1, rt⟩) :
    task_block retrieve m (TaskState.pending now b ev)
      = (qbump uid m, TaskState.replying (allowed_trace retrieve b ev.reply_token))
    ∧ qlookup uid (qbump uid m) = some ⟨USER_DAILY_LIMIT, rt⟩ := by
  have hml : qlookup ev.user_id m = some ⟨USER_DAILY_LIMIT - 1, rt⟩ := by
    rw [hu]; exact hm
  have hens : ensure_record now ev.user_id m = m :=
    ensure_live now ev.user_id m _ hml hn
  have hlt : quota_count ev.user_id (ensure_record now ev.user_id m) < USER_DAILY_LIMIT := by
    rw [hens]
    simp only [quota_count, hml]
    decide
  have hstep := handle_query_allowed retrieve now b ev m ht hi hlt
  rw [hens, hu] at hstep
  refine ⟨by simp [task_block, hstep], ?_⟩
  have hbump := qlookup_qbump uid m ⟨USER_DAILY_LIMIT - 1, rt⟩ hm
  have h10 : USER_DAILY_LIMIT - 1 + 1 = USER_DAILY_LIMIT := by decide
  rw [h10] at hbump
  exact hbump

theorem task_block_denied (retrieve : String → String) (uid : String)
    (rt now : Nat) (b : BackendOutcome) (ev : InboundEvent) (m : QuotaMap)
    (hu : ev.user_id = uid) (ht : ev.is_text = true) (hn : now < rt)
    (hm : qlookup uid m = some ⟨USER_DAILY_LIMIT, rt⟩) :
    task_block retrieve m (TaskState.pending now b ev)
      = (m, TaskState.replying (denied_trace ev.reply_token)) := by
  have hml : qlookup ev.user_id m = some ⟨USER_DAILY_LIMIT, rt⟩ := by
    rw [hu]; exact hm
  have hens : ensure_record now ev.user_id m = m :=
    ensure_live now ev.user_id m _ hml hn
  have hge : USER_DAILY_LIMIT ≤ quota_count ev.user_id (ensure_record now ev.user_id m) := by
    rw [hens]
    simp [quota_count, hml]
  have hstep := handle_denied retrieve now b ev m ht hge
  rw [hens] at hstep
  simp [task_block, hstep]

theorem done_with_block (retrieve : String → String) (m : QuotaMap)
    (tr : List Action) (t : TaskState) (h : done_with tr t) :
    task_block retrieve m t = (m, TaskState.finished tr) := by
  rcases h with h | h <;> subst h <;> rfl

theorem traceOf_done (tr : List Action) (t : TaskState)
    (h : done_with tr t) : traceOf t = some tr := by
  rcases h with h | h <;> subst h <;> rfl

theorem c6_inv_step (retrieve : String → String) (uid : String)
    (rt now1 now2 : Nat) (b1 b2 : BackendOutcome) (ev1 ev2 : InboundEvent)
    (hu1 : ev1.user_id = uid) (ht1 : ev1.is_text = true)
    (hi1 : is_introduction ev1.text = false) (hn1 : now1 < rt)
    (hu2 : ev2.user_id = uid) (ht2 : ev2.is_text = true)
    (hi2 : is_introduction ev2.text = false) (hn2 : now2 < rt)
    (pick : Bool) (s : ConcState)
    (h : c6_inv retrieve uid rt now1 now2 b1 b2 ev1 ev2 s) :
    c6_inv retrieve uid rt now1 now2 b1 b2 ev1 ev2
      (conc_step retrieve pick s) := by
  obtain ⟨cm, t1, t2⟩ := s
  rcases h with ⟨hc, h1, h2⟩ | ⟨hc, h1, h2⟩ | ⟨hc, h1, h2⟩ | ⟨hc, h1, h2⟩ | ⟨hc, h1, h2⟩
  · -- both pending, one slot left: the stepped task is allowed
    subst h1; subst h2
    cases pick
    · obtain ⟨hb, hl⟩ := task_block_allowed retrieve uid rt now2 b2 ev2 cm
        hu2 ht2 hi2 hn2 hc
      have hcs : conc_step retrieve false
          ⟨cm, TaskState.pending now1 b1 ev1, TaskState.pending now2 b2 ev2⟩
          = ⟨qbump uid cm, TaskState.pending now1 b1 ev1,
             TaskState.replying (allowed_trace retrieve b2 ev2.reply_token)⟩ := by
        simp [conc_step, hb]
      rw [hcs]
      exact Or.inr (Or.inr (Or.inl ⟨hl, rfl, Or.inl rfl⟩))
    · obtain ⟨hb, hl⟩ := task_block_allowed retrieve uid rt now1 b1 ev1 cm
        hu1 ht1 hi1 hn1 hc
      have hcs : conc_step retrieve true
          ⟨cm, TaskState.pending now1 b1 ev1, TaskState.pending now2 b2 ev2⟩
          = ⟨qbump uid cm,
             TaskState.replying (allowed_trace retrieve b1 ev1.reply_token),
             TaskState.pending now2 b2 ev2⟩ := by
        simp [conc_step, hb]
      rw [hcs]
      exact Or.inr (Or.inl ⟨hl, Or.inl rfl, rfl⟩)
  · -- task 1 already allowed, task 2 pending, count at the limit
    subst h2
    cases pick
    · have hb := task_block_denied retrieve uid rt now2 b2 ev2 cm hu2 ht2 hn2 hc
      have hcs : conc_step retrieve false
          ⟨cm, t1, TaskState.pending now2 b2 ev2⟩
          = ⟨cm, t1, TaskState.replying (denied_trace ev2.reply_token)⟩ := by
        simp [conc_step, hb]
      rw [hcs]
      exact Or.inr (Or.inr (Or.inr (Or.inl ⟨hc, h1, Or.inl rfl⟩)))
    · have hb := done_with_block retrieve cm _ t1 h1
      have hcs : conc_step retrieve true
          ⟨cm, t1, TaskState.pending now2 b2 ev2⟩
          = ⟨cm, TaskState.finished (allowed_trace retrieve b1 ev1.reply_token),
             TaskState.pending now2 b2 ev2⟩ := by
        simp [conc_step, hb]
      rw [hcs]
      exact Or.inr (Or.inl ⟨hc, Or.inr rfl, rfl⟩)
  · -- task 2 already allowed, task 1 pending, count at the limit
    subst h1
    cases pick
    · have hb := done_with_block retrieve cm _ t2 h2
      have hcs : conc_step retrieve false
          ⟨cm, TaskState.pending now1 b1 ev1, t2⟩
          = ⟨cm, TaskState.pending now1 b1 ev1,
             TaskState.finished (allowed_trace retrieve b2 ev2.reply_token)⟩ := by
        simp [conc_step, hb]
      rw [hcs]
      exact Or.inr (Or.inr (Or.inl ⟨hc, rfl, Or.inr rfl⟩))
    · have hb := task_block_denied retrieve uid rt now1 b1 ev1 cm hu1 ht1 hn1 hc
      have hcs : conc_step retrieve true
          ⟨cm, TaskState.pending now1 b1 ev1, t2⟩
          = ⟨cm, TaskState.replying (denied_trace ev1.reply_token), t2⟩ := by
        simp [conc_step, hb]
      rw [hcs]
      exact Or.inr (Or.inr (Or.inr (Or.inr ⟨hc, Or.inl rfl, h2⟩)))
  · -- task 1 allowed, task 2 denied, both past their quota blocks
    cases pick
    · have hb := done_with_block retrieve cm _ t2 h2
      have hcs : conc_step retrieve false ⟨cm, t1, t2⟩
          = ⟨cm, t1, TaskState.finished (denied_trace ev2.reply_token)⟩ := by
        simp [conc_step, hb]
      rw [hcs]
      exact Or.inr (Or.inr (Or.inr (Or.inl ⟨hc, h1, Or.inr rfl⟩)))
    · have hb := done_with_block retrieve cm _ t1 h1
      have hcs : conc_step retrieve true ⟨cm, t1, t2⟩
          = ⟨cm, TaskState.finished (allowed_trace retrieve b1 ev1.reply_token),
             t2⟩ := by
        simp [conc_step, hb]
      rw [hcs]
      exact Or.inr (Or.inr (Or.inr (Or.inl ⟨hc, Or.inr rfl, h2⟩)))
  · -- task 1 denied, task 2 allowed, both past their quota blocks
    cases pick
    · have hb := done_with_block retrieve cm _ t2 h2
      have hcs : conc_step retrieve false ⟨cm, t1, t2⟩
          = ⟨cm, t1,
             TaskState.finished (allowed_trace retrieve b2 ev2.reply_token)⟩ := by
        simp [conc_step, hb]
      rw [hcs]
      exact Or.inr (Or.inr (Or.inr (Or.inr ⟨hc, h1, Or.inr rfl⟩)))
    · have hb := done_with_block retrieve cm _ t1 h1
      have hcs : conc_step retrieve true ⟨cm, t1, t2⟩
          = ⟨cm, TaskState.finished (denied_trace ev1.reply_token), t2⟩ := by
        simp [conc_step, hb]
      rw [hcs]
      exact Or.inr (Or.inr (Or.inr (Or.inr ⟨hc, Or.inr rfl, h2⟩)))

theorem c6_inv_run (retrieve : String → String) (uid : String)
    (rt now1 now2 : Nat) (b1 b2 : BackendOutcome) (ev1 ev2 : InboundEvent)
    (hu1 : ev1.user_id = uid) (ht1 : ev1.is_text = true)
    (hi1 : is_introduction ev1.text = false) (hn1 : now1 < rt)
    (hu2 : ev2.user_id = uid) (ht2 : ev2.is_text = true)
    (hi2 : is_introduction ev2.text = false) (hn2 : now2 < rt)
    (sched : List Bool) :
    ∀ s, c6_inv retrieve uid rt now1 now2 b1 b2 ev1 ev2 s →
      c6_inv retrieve uid rt now1 now2 b1 b2 ev1 ev2
        (conc_run retrieve sched s) := by
  induction sched with
  | nil => exact fun s h => h
  | cons p ps ih =>
    intro s h
    exact ih _ (c6_inv_step retrieve uid rt now1 now2 b1 b2 ev1 ev2
      hu1 ht1 hi1 hn1 hu2 ht2 hi2 hn2 p s h)

theorem isPending_of_pending (now : Nat) (b : BackendOutcome)
    (ev : InboundEvent) (t : TaskState)
    (h : t = TaskState.pending now b ev) : t.isPending = true := by
  subst h; rfl

/-- C6: two concurrent query tasks for the same user with one quota
slot left (`count = USER_DAILY_LIMIT - 1`) never both get the slot:
under every schedule of the asyncio event loop — where a task's quota
block (lines 117-144, including the suspension-free backend call) is
atomic and interleaving can happen only at the final reply await —
once both tasks have run their quota blocks, exactly one carries the
backend-forwarded trace and the other the quota-denied trace, and the
stored count is exactly `USER_DAILY_LIMIT`. -/
theorem C6_no_double_grant (retrieve : String → String) (uid : String)
    (rt now1 now2 : Nat) (b1 b2 : BackendOutcome) (ev1 ev2 : InboundEvent)
    (m : QuotaMap) (sched : List Bool) (s : ConcState)
    (hm : qlookup uid m = some ⟨USER_DAILY_LIMIT - 1, rt⟩)
    (hu1 : ev1.user_id = uid) (ht1 : ev1.is_text = true)
    (hi1 : is_introduction ev1.text = false) (hn1 : now1 < rt)
    (hu2 : ev2.user_id = uid) (ht2 : ev2.is_text = true)
    (hi2 : is_introduction ev2.text = false) (hn2 : now2 < rt)
    (hs : s = conc_run retrieve sched
      ⟨m, TaskState.pending now1 b1 ev1, TaskState.pending now2 b2 ev2⟩)
    (hp1 : s.t1.isPending = false) (hp2 : s.t2.isPending = false) :
    ((traceOf s.t1 = some (allowed_trace retrieve b1 ev1.reply_token)
       ∧ traceOf s.t2 = some (denied_trace ev2.reply_token))
     ∨ (traceOf s.t1 = some (denied_trace ev1.reply_token)
       ∧ traceOf s.t2 = some (allowed_trace retrieve b2 ev2.reply_token)))
    ∧ qlookup uid s.counts = some ⟨USER_DAILY_LIMIT, rt⟩ := by
  have hinv := c6_inv_run retrieve uid rt now1 now2 b1 b2 ev1 ev2
    hu1 ht1 hi1 hn1 hu2 ht2 hi2 hn2 sched
    ⟨m, TaskState.pending now1 b1 ev1, TaskState.pending now2 b2 ev2⟩
    (Or.inl ⟨hm, rfl, rfl⟩)
  rw [← hs] at hinv
  rcases hinv with ⟨hc, h1, h2⟩ | ⟨hc, h1, h2⟩ | ⟨hc, h1, h2⟩ | ⟨hc, h1, h2⟩ | ⟨hc, h1, h2⟩
  · rw [isPending_of_pending now1 b1 ev1 s.t1 h1] at hp1
    exact absurd hp1 (by decide)
  · rw [isPending_of_pending now2 b2 ev2 s.t2 h2] at hp2
    exact absurd hp2 (by decide)
  · rw [isPending_of_pending now1 b1 ev1 s.t1 h1] at hp1
    exact absurd hp1 (by decide)
  · exact ⟨Or.inl ⟨traceOf_done _ _ h1, traceOf_done _ _ h2⟩, hc⟩
  · exact ⟨Or.inr ⟨traceOf_done _ _ h1, traceOf_done _ _ h2⟩, hc⟩

/-- C6 (witness): two concrete tasks, schedule running task 1's quota
block first: task 1 is forwarded, task 2 is denied, and the final
count is the limit. -/
theorem C6_witness :
    ((traceOf (conc_run (fun _ => "") [true, false]
        ⟨[("U", ⟨9, 100⟩)],
         TaskState.pending 0 BackendOutcome.openaiError ⟨"U", "hi", "t1", true⟩,
         TaskState.pending 0 BackendOutcome.openaiError ⟨"U", "hello", "t2", true⟩⟩).t1
        = some (allowed_trace (fun _ => "") BackendOutcome.openaiError "t1")
      ∧ traceOf (conc_run (fun _ => "") [true, false]
        ⟨[("U", ⟨9, 100⟩)],
         TaskState.pending 0 BackendOutcome.openaiError ⟨"U", "hi", "t1", true⟩,
         TaskState.pending 0 BackendOutcome.openaiError ⟨"U", "hello", "t2", true⟩⟩).t2
        = some (denied_trace "t2"))
     ∨ (traceOf (conc_run (fun _ => "") [true, false]
        ⟨[("U", ⟨9, 100⟩)],
         TaskState.pending 0 BackendOutcome.openaiError ⟨"U", "hi", "t1", true⟩,
         TaskState.pending 0 BackendOutcome.openaiError ⟨"U", "hello", "t2", true⟩⟩).t1
        = some (denied_trace "t1")
      ∧ traceOf (conc_run (fun _ => "") [true, false]
        ⟨[("U", ⟨9, 100⟩)],
         TaskState.pending 0 BackendOutcome.openaiError ⟨"U", "hi", "t1", true⟩,
         TaskState.pending 0 BackendOutcome.openaiError ⟨"U", "hello", "t2", true⟩⟩).t2
        = some (allowed_trace (fun _ => "") BackendOutcome.openaiError "t2")))
    ∧ qlookup "U" (conc_run (fun _ => "") [true, false]
        ⟨[("U", ⟨9, 100⟩)],
         TaskState.pending 0 BackendOutcome.openaiError ⟨"U", "hi", "t1", true⟩,
         TaskState.pending 0 BackendOutcome.openaiError ⟨"U", "hello", "t2", true⟩⟩).counts
        = some ⟨USER_DAILY_LIMIT, 100⟩ :=
  C6_no_double_grant (fun _ => "") "U" 100 0 0
    BackendOutcome.openaiError BackendOutcome.openaiError
    ⟨"U", "hi", "t1", true⟩ ⟨"U", "hello", "t2", true⟩
    [("U", ⟨9, 100⟩)] [true, false] _
    (by decide) rfl rfl (by decide) (by decide)
    rfl rfl (by decide) (by decide) rfl (by decide) (by decide)

/-- C9 (witness): concrete run of three events (two from a user at
count 9, one fresh user) keeps every count within the limit. -/
theorem C9_witness :
    counts_ok (handle_event (fun _ => "") 0 BackendOutcome.openaiError
        ⟨"U", "hi", "tok", true⟩ [("U", ⟨9, 100⟩)]).1 = true
    ∧ counts_ok (run_events (fun _ => "")
        [(0, ⟨"U", "hi", "t1", true⟩, BackendOutcome.openaiError),
         (1, ⟨"U", "hi", "t2", true⟩, BackendOutcome.openaiError),
         (2, ⟨"V", "hi", "t3", true⟩, BackendOutcome.openaiError)]
        [("U", ⟨9, 100⟩)]).1 = true :=
  C9_count_never_exceeds_limit (fun _ => "") 0 BackendOutcome.openaiError
    ⟨"U", "hi", "tok", true⟩
    [(0, ⟨"U", "hi", "t1", true⟩, BackendOutcome.openaiError),
     (1, ⟨"U", "hi", "t2", true⟩, BackendOutcome.openaiError),
     (2, ⟨"V", "hi", "t3", true⟩, BackendOutcome.openaiError)]
    [("U", ⟨9, 100⟩)] (by decide)

end CchBot
